import Mathlib

/-!
Verification model of the sqltee repository: a database/sql/driver proxy that
forwards driver operations to a wrapped backend, logs each operation, and
interpolates query parameters for diagnostics.

The proxy (src/sqltee.go) is embedded as pure functions from backend
capability records to a result together with a trace of events: backend
invocations and logger invocations, in the order they happen at run time
(deferred log calls fire after the method body, so each method's own log
record is the last event of its trace).
-/

namespace Sqltee

/-- Driver values are opaque to the proxy (Go interface value); modelled as atoms. -/
abbrev Value : Type := Nat

/-- Backend result handles are opaque to the proxy; modelled as atoms. -/
abbrev ResultData : Type := Nat

/-- Transaction options are opaque to the proxy (driver.TxOptions); modelled as atoms. -/
abbrev TxOptions : Type := Nat

/-- Errors observable at the proxy layer. errSkip models driver.ErrSkip;
namedParams models the error built in namedValueToValue; canceled and
deadlineExceeded model the two context errors; backend models any error
produced by the wrapped backend. -/
inductive Err where
  | errSkip
  | namedParams
  | canceled
  | deadlineExceeded
  | backend (code : Nat)
deriving DecidableEq, Repr

/-- A context for the non-blocking cancellation check: none is a live
context (Done not ready, Err nil); some e is a cancelled or expired
context whose Err method returns e. -/
abbrev Ctx : Type := Option Err

/-- driver.NamedValue: optional name, 1-based ordinal, value. -/
structure NamedValue where
  name : String
  ordinal : Nat
  value : Value
deriving DecidableEq, Repr

end Sqltee

namespace Sqltee

/-- Backend rows handle (driver.Rows): Next fills the destination buffer and
reports an error (io.EOF at end of data). Modelled as the single call outcome. -/
structure BackendRows where
  next : List Value → List Value × Option Err

/-- Backend transaction handle (driver.Tx). -/
structure BackendTx where
  commit : Option Err
  rollback : Option Err

/-- Backend statement handle (driver.Stmt plus its optional capabilities
StmtExecContext and StmtQueryContext, absent when the backend does not
implement them). -/
structure BackendStmt where
  close : Option Err
  exec : List Value → Except Err ResultData
  query : List Value → Except Err BackendRows
  stmtExecContext : Option (Ctx → List NamedValue → Except Err ResultData)
  stmtQueryContext : Option (Ctx → List NamedValue → Except Err BackendRows)

/-- Backend connection (driver.Conn plus its optional capabilities; a field
holding none means the backend does not implement that interface). -/
structure BackendConn where
  prepare : String → Except Err BackendStmt
  close : Option Err
  begin : Except Err BackendTx
  execer : Option (String → List Value → Except Err ResultData)
  execerContext : Option (Ctx → String → List NamedValue → Except Err ResultData)
  queryer : Option (String → List Value → Except Err BackendRows)
  queryerContext : Option (Ctx → String → List NamedValue → Except Err BackendRows)
  connPrepareContext : Option (Ctx → String → Except Err BackendStmt)
  connBeginTx : Option (Ctx → TxOptions → Except Err BackendTx)
  pinger : Option (Ctx → Option Err)

/-- Observable events of one proxy call: backend invocations (b-prefixed
constructors) and Logger invocations (one per Logger interface method,
carrying the same payload the code passes). -/
inductive Event where
  | bOpen (name : String)
  | bPrepare (query : String)
  | bPrepareCtx (query : String)
  | bBegin
  | bBeginTx
  | bClose
  | bExec (query : String) (dargs : List Value)
  | bExecCtx (query : String) (nvdargs : List NamedValue)
  | bQuery (query : String) (dargs : List Value)
  | bQueryCtx (query : String) (nvdargs : List NamedValue)
  | bPing
  | bStmtExec (dargs : List Value)
  | bStmtExecCtx (nvdargs : List NamedValue)
  | bStmtQuery (dargs : List Value)
  | bStmtQueryCtx (nvdargs : List NamedValue)
  | bStmtClose
  | bRowsNext
  | bCommit
  | bRollback
  | driverOpen (err : Option Err)
  | connPrepare (query : String) (err : Option Err)
  | connPrepareCtx (query : String) (err : Option Err)
  | connClose (err : Option Err)
  | connBegin (err : Option Err)
  | connBeginTx (opts : TxOptions) (err : Option Err)
  | connExec (query : String) (dargs : List Value) (res : Option ResultData) (err : Option Err)
  | connExecCtx (query : String) (nvdargs : List NamedValue) (res : Option ResultData) (err : Option Err)
  | connPing (err : Option Err)
  | connQuery (query : String) (dargs : List Value) (err : Option Err)
  | connQueryCtx (query : String) (nvdargs : List NamedValue) (err : Option Err)
  | stmtClose (err : Option Err)
  | stmtExec (query : String) (dargs : List Value) (res : Option ResultData) (err : Option Err)
  | stmtExecCtx (query : String) (nvdargs : List NamedValue) (res : Option ResultData) (err : Option Err)
  | stmtQuery (query : String) (dargs : List Value) (err : Option Err)
  | stmtQueryCtx (query : String) (nvdargs : List NamedValue) (err : Option Err)
  | rowsNext (dest : List Value) (err : Option Err)
  | txCommit (err : Option Err)
  | txRollback (err : Option Err)
deriving DecidableEq, Repr

/-- True for backend invocations, false for Logger invocations. -/
def Event.isBackend : Event → Bool
  | .bOpen _ => true
  | .bPrepare _ => true
  | .bPrepareCtx _ => true
  | .bBegin => true
  | .bBeginTx => true
  | .bClose => true
  | .bExec _ _ => true
  | .bExecCtx _ _ => true
  | .bQuery _ _ => true
  | .bQueryCtx _ _ => true
  | .bPing => true
  | .bStmtExec _ => true
  | .bStmtExecCtx _ => true
  | .bStmtQuery _ => true
  | .bStmtQueryCtx _ => true
  | .bStmtClose => true
  | .bRowsNext => true
  | .bCommit => true
  | .bRollback => true
  | _ => false

/-- The backend invocations of a trace. -/
def backendCalls (tr : List Event) : List Event :=
  tr.filter Event.isBackend

/-- The log records of a trace (the Logger invocations). -/
def logs (tr : List Event) : List Event :=
  tr.filter (fun e => !e.isBackend)

/-- The operation name each log record is emitted under (the fixed
vocabulary of the design); backend invocations are named backend. -/
def eventName : Event → String
  | .driverOpen _ => "driver-open"
  | .connPrepare _ _ => "conn-prepare"
  | .connPrepareCtx _ _ => "conn-prepare-context"
  | .connClose _ => "conn-close"
  | .connBegin _ => "conn-begin"
  | .connBeginTx _ _ => "conn-begin-tx"
  | .connExec _ _ _ _ => "conn-exec"
  | .connExecCtx _ _ _ _ => "conn-exec-context"
  | .connPing _ => "conn-ping"
  | .connQuery _ _ _ => "conn-query"
  | .connQueryCtx _ _ _ => "conn-query-context"
  | .stmtClose _ => "stmt-close"
  | .stmtExec _ _ _ _ => "stmt-exec"
  | .stmtExecCtx _ _ _ _ => "stmt-exec-context"
  | .stmtQuery _ _ _ => "stmt-query"
  | .stmtQueryCtx _ _ _ => "stmt-query-context"
  | .rowsNext _ _ => "rows-next"
  | .txCommit _ => "tx-commit"
  | .txRollback _ => "tx-rollback"
  | _ => "backend"

/-- The query text carried by a log record, when the record has one. -/
def eventQueryField : Event → Option String
  | .connPrepare q _ => some q
  | .connPrepareCtx q _ => some q
  | .connExec q _ _ _ => some q
  | .connExecCtx q _ _ _ => some q
  | .connQuery q _ _ => some q
  | .connQueryCtx q _ _ => some q
  | .stmtExec q _ _ _ => some q
  | .stmtExecCtx q _ _ _ => some q
  | .stmtQuery q _ _ => some q
  | .stmtQueryCtx q _ _ => some q
  | _ => none

/-- The error carried by a log record (backend invocations carry none). -/
def eventErrField : Event → Option Err
  | .driverOpen e => e
  | .connPrepare _ e => e
  | .connPrepareCtx _ e => e
  | .connClose e => e
  | .connBegin e => e
  | .connBeginTx _ e => e
  | .connExec _ _ _ e => e
  | .connExecCtx _ _ _ e => e
  | .connPing e => e
  | .connQuery _ _ e => e
  | .connQueryCtx _ _ e => e
  | .stmtClose e => e
  | .stmtExec _ _ _ e => e
  | .stmtExecCtx _ _ _ e => e
  | .stmtQuery _ _ e => e
  | .stmtQueryCtx _ _ e => e
  | .rowsNext _ e => e
  | .txCommit e => e
  | .txRollback e => e
  | _ => none

/-- The log records of a trace, reduced to operation name and carried
error: one pair per Logger invocation, in emission order. -/
def logSummary (tr : List Event) : List (String × Option Err) :=
  (logs tr).map (fun ev => (eventName ev, eventErrField ev))

/-- The error of a fallible outcome, as the deferred log captures it when
the return value is assigned to the logged error variable. -/
def errOf {α : Type} : Except Err α → Option Err
  | .error e => some e
  | .ok _ => none

end Sqltee

namespace Sqltee

/-- The proxy connection wrapper (struct connection in sqltee.go); the
Logger is modelled by the event traces the operations return. -/
structure connection where
  conn : BackendConn

/-- The proxy statement wrapper (struct statement in sqltee.go). The query
field defaults to the empty string when the Go composite literal omits it. -/
structure statement where
  query : String
  stmt : BackendStmt

/-- The proxy result wrapper (struct result in sqltee.go). -/
structure result where
  res : ResultData
deriving DecidableEq, Repr

/-- The proxy rows wrapper (struct rowsIterator in sqltee.go). -/
structure rowsIterator where
  rows : BackendRows

/-- The proxy transaction wrapper (struct transaction in sqltee.go). -/
structure transaction where
  tx : BackendTx

/-- namedValueToValue from sqltee.go: converts named values to positional
values, failing if any carries a non-empty name. -/
def namedValueToValue : List NamedValue → Except Err (List Value)
  | [] => .ok []
  | nv :: rest =>
    if 0 < nv.name.length then .error Err.namedParams
    else
      match namedValueToValue rest with
      | .error e => .error e
      | .ok vs => .ok (nv.value :: vs)

/-- True when some named value carries a non-empty name. -/
def hasNamed (l : List NamedValue) : Bool :=
  l.any (fun nv => decide (0 < nv.name.length))

def connection.Prepare (c : connection) (query : String) :
    Except Err statement × List Event :=
  match c.conn.prepare query with
  | .error e => (.error e, [Event.bPrepare query, Event.connPrepare query (some e)])
  | .ok st => (.ok (statement.mk query st), [Event.bPrepare query, Event.connPrepare query none])

def connection.Close (c : connection) : Option Err × List Event :=
  (c.conn.close, [Event.bClose, Event.connClose c.conn.close])

def connection.Begin (c : connection) : Except Err transaction × List Event :=
  match c.conn.begin with
  | .error e => (.error e, [Event.bBegin, Event.connBegin (some e)])
  | .ok t => (.ok (transaction.mk t), [Event.bBegin, Event.connBegin none])

def connection.BeginTx (c : connection) (ctx : Ctx) (opts : TxOptions) :
    Except Err transaction × List Event :=
  match c.conn.connBeginTx with
  | some f =>
    match f ctx opts with
    | .error e => (.error e, [Event.bBeginTx, Event.connBeginTx opts (some e)])
    | .ok t => (.ok (transaction.mk t), [Event.bBeginTx, Event.connBeginTx opts none])
  | none =>
    match c.conn.begin with
    | .error e => (.error e, [Event.bBegin, Event.connBeginTx opts (some e)])
    | .ok t => (.ok (transaction.mk t), [Event.bBegin, Event.connBeginTx opts none])

def connection.PrepareContext (c : connection) (ctx : Ctx) (query : String) :
    Except Err statement × List Event :=
  match c.conn.connPrepareContext with
  | some f =>
    match f ctx query with
    | .error e => (.error e, [Event.bPrepareCtx query, Event.connPrepareCtx query (some e)])
    | .ok st =>
      (.ok (statement.mk "" st), [Event.bPrepareCtx query, Event.connPrepareCtx query none])
  | none =>
    let p := connection.Prepare c query
    (p.1, p.2 ++ [Event.connPrepareCtx query none])

def connection.Exec (c : connection) (query : String) (dargs : List Value) :
    Except Err result × List Event :=
  match c.conn.execer with
  | some f =>
    match f query dargs with
    | .error e => (.error e, [Event.bExec query dargs, Event.connExec query dargs none (some e)])
    | .ok r =>
      (.ok (result.mk r), [Event.bExec query dargs, Event.connExec query dargs (some r) none])
  | none => (.error Err.errSkip, [Event.connExec query dargs none none])

def connection.ExecContext (c : connection) (ctx : Ctx) (query : String)
    (nvdargs : List NamedValue) : Except Err result × List Event :=
  match c.conn.execerContext with
  | some f =>
    match f ctx query nvdargs with
    | .error e =>
      (.error e, [Event.bExecCtx query nvdargs, Event.connExecCtx query nvdargs none (some e)])
    | .ok r =>
      (.ok (result.mk r), [Event.bExecCtx query nvdargs, Event.connExecCtx query nvdargs (some r) none])
  | none =>
    match namedValueToValue nvdargs with
    | .error e => (.error e, [Event.connExecCtx query nvdargs none (some e)])
    | .ok dargs =>
      match ctx with
      | some ce => (.error ce, [Event.connExecCtx query nvdargs none none])
      | none =>
        let p := connection.Exec c query dargs
        (p.1, p.2 ++ [Event.connExecCtx query nvdargs none none])

def connection.Ping (c : connection) (ctx : Ctx) : Option Err × List Event :=
  match c.conn.pinger with
  | some f => (f ctx, [Event.bPing, Event.connPing (f ctx)])
  | none => (none, [Event.connPing none])

def connection.Query (c : connection) (query : String) (dargs : List Value) :
    Except Err rowsIterator × List Event :=
  match c.conn.queryer with
  | some f =>
    match f query dargs with
    | .error e => (.error e, [Event.bQuery query dargs, Event.connQuery query dargs (some e)])
    | .ok rws =>
      (.ok (rowsIterator.mk rws), [Event.bQuery query dargs, Event.connQuery query dargs none])
  | none => (.error Err.errSkip, [Event.connQuery query dargs none])

def connection.QueryContext (c : connection) (ctx : Ctx) (query : String)
    (nvdargs : List NamedValue) : Except Err rowsIterator × List Event :=
  match c.conn.queryerContext with
  | some f =>
    match f ctx query nvdargs with
    | .error e =>
      (.error e, [Event.bQueryCtx query nvdargs, Event.connQueryCtx query nvdargs (some e)])
    | .ok rws =>
      (.ok (rowsIterator.mk rws), [Event.bQueryCtx query nvdargs, Event.connQueryCtx query nvdargs none])
  | none =>
    match namedValueToValue nvdargs with
    | .error e => (.error e, [Event.connQueryCtx query nvdargs (some e)])
    | .ok dargs =>
      match ctx with
      | some ce => (.error ce, [Event.connQueryCtx query nvdargs none])
      | none =>
        let p := connection.Query c query dargs
        (p.1, p.2 ++ [Event.connQueryCtx query nvdargs none])

def statement.Close (s : statement) : Option Err × List Event :=
  (s.stmt.close, [Event.bStmtClose, Event.stmtClose s.stmt.close])

def statement.Exec (s : statement) (dargs : List Value) :
    Except Err result × List Event :=
  match s.stmt.exec dargs with
  | .error e => (.error e, [Event.bStmtExec dargs, Event.stmtExec s.query dargs none (some e)])
  | .ok r =>
    (.ok (result.mk r), [Event.bStmtExec dargs, Event.stmtExec s.query dargs (some r) none])

def statement.ExecContext (s : statement) (ctx : Ctx) (nvdargs : List NamedValue) :
    Except Err result × List Event :=
  match s.stmt.stmtExecContext with
  | some f =>
    match f ctx nvdargs with
    | .error e =>
      (.error e, [Event.bStmtExecCtx nvdargs, Event.stmtExecCtx s.query nvdargs none (some e)])
    | .ok r =>
      (.ok (result.mk r), [Event.bStmtExecCtx nvdargs, Event.stmtExecCtx s.query nvdargs (some r) none])
  | none =>
    match namedValueToValue nvdargs with
    | .error e => (.error e, [Event.stmtExecCtx s.query nvdargs none (some e)])
    | .ok dargs =>
      match ctx with
      | some ce => (.error ce, [Event.stmtExecCtx s.query nvdargs none none])
      | none =>
        let p := statement.Exec s dargs
        (p.1, p.2 ++ [Event.stmtExecCtx s.query nvdargs none none])

def statement.Query (s : statement) (dargs : List Value) :
    Except Err rowsIterator × List Event :=
  match s.stmt.query dargs with
  | .error e => (.error e, [Event.bStmtQuery dargs, Event.stmtQuery s.query dargs (some e)])
  | .ok rws =>
    (.ok (rowsIterator.mk rws), [Event.bStmtQuery dargs, Event.stmtQuery s.query dargs none])

def statement.QueryContext (s : statement) (ctx : Ctx) (nvdargs : List NamedValue) :
    Except Err rowsIterator × List Event :=
  match s.stmt.stmtQueryContext with
  | some f =>
    match f ctx nvdargs with
    | .error e =>
      (.error e, [Event.bStmtQueryCtx nvdargs, Event.stmtQueryCtx s.query nvdargs (some e)])
    | .ok rws =>
      (.ok (rowsIterator.mk rws), [Event.bStmtQueryCtx nvdargs, Event.stmtQueryCtx s.query nvdargs none])
  | none =>
    match namedValueToValue nvdargs with
    | .error e => (.error e, [Event.stmtQueryCtx s.query nvdargs (some e)])
    | .ok dargs =>
      match ctx with
      | some ce => (.error ce, [Event.stmtQueryCtx s.query nvdargs none])
      | none =>
        let p := statement.Query s dargs
        (p.1, p.2 ++ [Event.stmtQueryCtx s.query nvdargs none])

def rowsIterator.Next (r : rowsIterator) (dest : List Value) :
    Option Err × List Event :=
  ((r.rows.next dest).2, [Event.bRowsNext, Event.rowsNext (r.rows.next dest).1 (r.rows.next dest).2])

def transaction.Commit (t : transaction) : Option Err × List Event :=
  (t.tx.commit, [Event.bCommit, Event.txCommit t.tx.commit])

def transaction.Rollback (t : transaction) : Option Err × List Event :=
  (t.tx.rollback, [Event.bRollback, Event.txRollback t.tx.rollback])

/-- The wrapped backend driver (driver.Driver): openConn models its Open
method. -/
structure BackendDriver where
  openConn : String → Except Err BackendConn

/-- The proxy driver (struct Driver in sqltee.go). -/
structure Driver where
  driver : BackendDriver

/-- Driver.Open from sqltee.go: times and logs the backend open and wraps
the returned connection in the proxy wrapper. -/
def Driver.Open (d : Driver) (name : String) : Except Err connection × List Event :=
  match d.driver.openConn name with
  | .error e => (.error e, [Event.bOpen name, Event.driverOpen (some e)])
  | .ok bc => (.ok (connection.mk bc), [Event.bOpen name, Event.driverOpen none])

end Sqltee

deriving instance DecidableEq for Except

namespace Sqltee

/-!
The literal formatter and the parameter scanner. Their implementations
(packages sqlteescan and teescan) are absent from src; only their test
vectors and their caller, the Gob logger's interpolation method, are
present. They are therefore modelled from the spec, while the
interpolation loop itself is translated from the source of
Gob.interpolation (src/tee_test.go).
-/

/-- A UTC instant with second precision, as the formatter renders it. -/
structure UTCTime where
  year : Nat
  month : Nat
  day : Nat
  hour : Nat
  minute : Nat
  second : Nat
deriving DecidableEq, Repr

/-- Modelled from the spec: the runtime value kinds the Literal Formatter
supports. The floatv constructor carries the shortest round-trippable
decimal text of the float, which binary floating point semantics is outside
this embedding; null models a nil pointer or optional of any supported
kind; ptr models a non-nil pointer; unsupported models a value of any
other kind, carrying its kind name. -/
inductive GoValue where
  | intv (i : Int)
  | floatv (shortest : String)
  | boolv (b : Bool)
  | bytesv (bs : List Nat)
  | strv (s : String)
  | timev (t : UTCTime)
  | null
  | ptr (v : GoValue)
  | unsupported (kind : String)
deriving DecidableEq, Repr

/-- The scanner error: the formatter met a value of an unsupported kind. -/
inductive ScanErr where
  | unsupportedType (kind : String)
deriving DecidableEq, Repr

/-- Lower-case hexadecimal digit. -/
def hexDigit (n : Nat) : Char :=
  if n < 10 then Char.ofNat (48 + n) else Char.ofNat (87 + n)

/-- Two lower-case hexadecimal digits of one byte. -/
def byteHex (b : Nat) : String :=
  String.mk [hexDigit (b / 16 % 16), hexDigit (b % 16)]

/-- Hexadecimal encoding of a byte sequence. -/
def bytesHex (bs : List Nat) : String :=
  String.join (bs.map byteHex)

/-- Decimal text of a number, left padded with zeros to two digits. -/
def pad2 (n : Nat) : String :=
  if n < 10 then "0" ++ toString n else toString n

/-- Decimal text of a number, left padded with zeros to four digits. -/
def pad4 (n : Nat) : String :=
  if n < 10 then "000" ++ toString n
  else if n < 100 then "00" ++ toString n
  else if n < 1000 then "0" ++ toString n
  else toString n

/-- ISO-8601 instant with second precision and Z suffix. -/
def rfc3339 (t : UTCTime) : String :=
  pad4 t.year ++ "-" ++ pad2 t.month ++ "-" ++ pad2 t.day ++ "T" ++
    pad2 t.hour ++ ":" ++ pad2 t.minute ++ ":" ++ pad2 t.second ++ "Z"

/-- Modelled from the spec: ValueString, the Literal Formatter (its
implementation is absent from src; the rendering rules follow the table in
the spec and the pinned test vectors in src/teescan/scan_test.go and
src/sqlteescan/sqlteescan_test.go). -/
def ValueString : GoValue → Except ScanErr String
  | .intv i => .ok (toString i)
  | .floatv shortest => .ok shortest
  | .boolv b => .ok (if b then "TRUE" else "FALSE")
  | .bytesv bs => .ok ("E'\\\\x" ++ bytesHex bs ++ "'")
  | .strv s => .ok ("'" ++ s ++ "'")
  | .timev t => .ok ("'" ++ rfc3339 t ++ "'")
  | .null => .ok "NULL"
  | .ptr v => ValueString v
  | .unsupported kind => .error (ScanErr.unsupportedType kind)

/-- True when the formatter fails on the value. -/
def formatFails (v : GoValue) : Bool :=
  match ValueString v with
  | .error _ => true
  | .ok _ => false

/-- One bound parameter as the scanner hands it to the interpolation loop:
the placeholder text reported by the scanner (empty for a positional
value), the 1-based ordinal, and the raw value (formatted lazily, at scan
time). -/
structure BoundParam where
  placeholder : String
  ordinal : Nat
  value : GoValue
deriving DecidableEq, Repr

/-- Modelled from the spec: positional bound parameters carry no
placeholder text of their own and 1-based strictly increasing ordinals. -/
def positionalParamsFrom : Nat → List GoValue → List BoundParam
  | _, [] => []
  | i, v :: rest => BoundParam.mk "" i v :: positionalParamsFrom (i + 1) rest

/-- The bound parameters of a positional value list. -/
def positionalParams (values : List GoValue) : List BoundParam :=
  positionalParamsFrom 1 values

/-- Modelled from the spec: the scan order of the restartable scanner;
with the reverse flag (which the interpolation caller always sets) the
highest ordinal comes first. -/
def scanSeq (ps : List BoundParam) (reverse : Bool) : List BoundParam :=
  if reverse then ps.reverse else ps

/-- Go strings.Replace with n = -1 on character lists: replaces every
non-overlapping occurrence of pat, scanning left to right. The fuel is a
recursion bound: every step consumes at least one character, so the
caller's fuel of the list length never runs out. Queries and placeholders
here are ASCII, so character positions coincide with the byte positions
Go uses. -/
def replaceAllChAux (pat rep : List Char) : Nat → List Char → List Char
  | 0, s => s
  | _ + 1, [] => []
  | fuel + 1, c :: cs =>
    if pat ≠ [] ∧ List.isPrefixOf pat (c :: cs) then
      rep ++ replaceAllChAux pat rep fuel (List.drop (pat.length - 1) cs)
    else
      c :: replaceAllChAux pat rep fuel cs

/-- Go strings.Replace with n = -1 on character lists. -/
def replaceAllCh (pat rep s : List Char) : List Char :=
  replaceAllChAux pat rep s.length s

/-- Go strings.Replace with n = -1 on strings. -/
def replaceAllStr (s pat rep : String) : String :=
  (replaceAllCh pat.toList rep.toList s.toList).asString

/-- Go strings.LastIndex on character lists: the largest index at which
pat occurs as a substring, none when it does not occur. -/
def lastIndexCh (s pat : List Char) : Option Nat :=
  ((List.range (s.length + 1)).filter (fun i => List.isPrefixOf pat (List.drop i s))).getLast?

/-- Go strings.LastIndex on strings. -/
def lastIndexStr (s pat : String) : Option Nat :=
  lastIndexCh s.toList pat.toList

/-- Go s[:n] (ASCII, so characters coincide with bytes). -/
def strTake (s : String) (n : Nat) : String :=
  (s.toList.take n).asString

/-- Go s[n:] (ASCII, so characters coincide with bytes). -/
def strDrop (s : String) (n : Nat) : String :=
  (s.toList.drop n).asString

/-- One substitution of the Gob.interpolation loop (src/tee_test.go),
translated from the source: on the first iteration the running
interpolation starts from the query; a positional parameter with no
placeholder text of its own gets the ordinal placeholder; with no
configured explicit placeholder every occurrence of the ordinal
placeholder is replaced (strings.Replace with -1); otherwise the rightmost
occurrence of the configured (or fallback "?") placeholder is located with
strings.LastIndex and exactly one character of it is spliced out, as the
source's interpolation[:i] + value + interpolation[i+1:] does. -/
def substituteOne (cfg query : String) (p : BoundParam) (value : String) (interp : String) :
    String :=
  let interp1 := if interp = "" then query else interp
  let ph :=
    if p.placeholder = "" ∧ p.ordinal ≠ 0 then "$" ++ toString p.ordinal
    else p.placeholder
  if cfg = "" ∧ ph ≠ "" then
    replaceAllStr interp1 ph value
  else
    let ph2 := if cfg ≠ "" then cfg else if ph = "" then "?" else ph
    match lastIndexStr interp1 ph2 with
    | some i => strTake interp1 i ++ value ++ strDrop interp1 (i + 1)
    | none => interp1

/-- The loop of Gob.interpolation (src/tee_test.go), translated from the
source, consuming the scanner's parameter sequence lazily: each Scan
formats the next value (stopping with the scan error if the formatter
fails), then substitutes its placeholder into the running interpolation;
if a substitution leaves the text equal to the original query the loop
resets the interpolation to empty and breaks. Returns the interpolation
text as left by the loop and the scan error, if any. -/
def interpStep (cfg query : String) : List BoundParam → String → String × Option ScanErr
  | [], interp => (interp, none)
  | p :: rest, interp =>
    match ValueString p.value with
    | .error e => (interp, some e)
    | .ok value =>
      if substituteOne cfg query p value interp = query then ("", none)
      else interpStep cfg query rest (substituteOne cfg query p value interp)

/-- The pieces Gob.interpolation appends to the log record that the claims
inspect: the call error, the parameters scan error, the interpolated query
(present only when interpolation fully succeeded), the raw query fallback
and the raw argument list fallback. -/
structure GobRecord where
  derr : Option Err
  scanError : Option ScanErr
  interpolation : Option String
  rawQuery : Option String
  args : Option (List GoValue)
deriving DecidableEq, Repr

/-- Gob.interpolation (src/tee_test.go) translated from the source, for a
call carrying positional values: scans the parameters in reverse order
(scan.Reverse is set to true by the caller), builds the interpolation, and
falls back to the raw query plus the raw argument list whenever the
interpolation text ends up empty, in particular after a parameters scan
error. cfg is the configured explicit placeholder of the logger, empty
when placeholders derive from parameter ordinals. -/
def gobInterpolation (cfg query : String) (values : List GoValue) (derr : Option Err) :
    GobRecord :=
  let p := interpStep cfg query (scanSeq (positionalParams values) true) ""
  let interp := if p.2.isSome then "" else p.1
  GobRecord.mk derr p.2
    (if interp = "" then none else some interp)
    (if interp = "" ∧ query ≠ "" then some query else none)
    (if interp = "" ∧ values ≠ [] then some values else none)

/-- Follows the claim and spec words, for comparison with the source: a
right-anchored substitution that replaces the rightmost remaining
occurrence of the whole ordinal placeholder text with the literal, one
occurrence per parameter, highest ordinal first (the parameter list is
given in scan order, each entry an ordinal with its literal). -/
def rightAnchoredStep (s : String) (p : Nat × String) : String :=
  let ph := "$" ++ toString p.1
  match lastIndexStr s ph with
  | some i => strTake s i ++ p.2 ++ strDrop s (i + ph.length)
  | none => s

/-- Follows the claim and spec words: reverse-order right-anchored
interpolation over a parameter list in scan order. -/
def rightAnchoredInterp (query : String) (ps : List (Nat × String)) : String :=
  ps.foldl rightAnchoredStep query

end Sqltee

namespace Sqltee

/-! Helper lemmas. -/

theorem namedValueToValue_of_named (l : List NamedValue) (h : hasNamed l = true) :
    namedValueToValue l = .error Err.namedParams := by
  induction l with
  | nil => simp [hasNamed] at h
  | cons nv rest ih =>
    simp only [hasNamed, List.any_cons, Bool.or_eq_true, decide_eq_true_eq] at h
    by_cases h1 : 0 < nv.name.length
    · simp [namedValueToValue, h1]
    · have h2 : hasNamed rest = true := by
        simp only [hasNamed]
        rcases h with h | h
        · exact absurd h h1
        · exact h
      simp [namedValueToValue, h1, ih h2]

theorem namedValueToValue_of_unnamed (l : List NamedValue) (h : hasNamed l = false) :
    namedValueToValue l = .ok (l.map NamedValue.value) := by
  induction l with
  | nil => rfl
  | cons nv rest ih =>
    simp only [hasNamed, List.any_cons, Bool.or_eq_false_iff, decide_eq_false_iff_not] at h
    have h2 : hasNamed rest = false := h.2
    simp [namedValueToValue, h.1, ih h2]

theorem positionalParamsFrom_map_value (l : List GoValue) :
    ∀ i : Nat, (positionalParamsFrom i l).map BoundParam.value = l := by
  induction l with
  | nil => intro i; rfl
  | cons v rest ih => intro i; simp [positionalParamsFrom, ih]

theorem positionalParamsFrom_map_ordinal (l : List GoValue) :
    ∀ i : Nat, (positionalParamsFrom i l).map BoundParam.ordinal = List.range' i l.length := by
  induction l with
  | nil => intro i; rfl
  | cons v rest ih => intro i; simp [positionalParamsFrom, ih, List.range'_succ]

theorem interpStep_ok_all_format (cfg query : String) :
    ∀ (ps : List BoundParam) (acc : String),
      (interpStep cfg query ps acc).2 = none →
      (interpStep cfg query ps acc).1 ≠ "" →
      ∀ p ∈ ps, formatFails p.value = false := by
  intro ps
  induction ps with
  | nil => intro acc _ _ p hp; cases hp
  | cons p rest ih =>
    intro acc h1 h2 p2 hp2
    rcases hval : ValueString p.value with e | value
    · rw [interpStep] at h1
      simp [hval] at h1
    · rw [interpStep] at h1 h2
      simp only [hval] at h1 h2
      by_cases hbr : substituteOne cfg query p value acc = query
      · rw [if_pos hbr] at h2
        exact absurd rfl h2
      · rw [if_neg hbr] at h1 h2
        rcases List.mem_cons.mp hp2 with hp2 | hp2
        · subst hp2
          simp [formatFails, hval]
        · exact ih _ h1 h2 p2 hp2

end Sqltee
namespace Sqltee

/-! Concrete backend fixtures used by witnesses and counterexamples. -/

/-- A backend rows fixture: Next leaves the buffer and reports no error. -/
def rows0 : BackendRows := BackendRows.mk (fun d => (d, none))

/-- A backend transaction fixture: commit and rollback succeed. -/
def tx0 : BackendTx := BackendTx.mk none none

/-- A backend statement fixture implementing only the plain capabilities. -/
def stmt0 : BackendStmt :=
  BackendStmt.mk none (fun _ => .ok 1) (fun _ => .ok rows0) none none

/-- A backend prepare function fixture. -/
def prepareFn : String → Except Err BackendStmt := fun _ => .ok stmt0

/-- A backend Execer function fixture. -/
def execFn : String → List Value → Except Err ResultData := fun _ _ => .ok 7

/-- A backend Queryer function fixture. -/
def queryFn : String → List Value → Except Err BackendRows := fun _ _ => .ok rows0

/-- A backend ConnPrepareContext function fixture. -/
def prepCtxFn : Ctx → String → Except Err BackendStmt := fun _ _ => .ok stmt0

/-- A wrapped backend implementing the plain Execer and Queryer
capabilities but none of the context-aware ones. -/
def connPlain : connection :=
  connection.mk (BackendConn.mk prepareFn none (.ok tx0)
    (some execFn) none (some queryFn) none none none none)

/-- A wrapped backend implementing no optional capability at all. -/
def connBare : connection :=
  connection.mk (BackendConn.mk prepareFn none (.ok tx0)
    none none none none none none none)

/-- A wrapped backend implementing ConnPrepareContext. -/
def connPrepCtx : connection :=
  connection.mk (BackendConn.mk prepareFn none (.ok tx0)
    none none none none (some prepCtxFn) none none)

/-- A single unnamed parameter list. -/
def nvUnnamed : List NamedValue := [NamedValue.mk "" 1 5]

/-- A single named parameter list. -/
def nvNamed : List NamedValue := [NamedValue.mk "k" 1 7]

end Sqltee

namespace Sqltee

/-- C1: on a backend without the context-aware capability, ExecContext and
QueryContext degrade in this order: a named parameter fails the call with
the named-parameters error before any backend invocation and regardless of
the context state; otherwise one non-blocking cancellation check runs, and
a cancelled or expired context aborts the call with the context's error
without invoking the backend; only otherwise is the plain capability
invoked, through the proxy's own plain method, followed by the deferred
context log record. -/
theorem claim_C1_context_fallback_order (c : connection) (ctx : Ctx) (q : String)
    (nvdargs : List NamedValue)
    (hx : c.conn.execerContext = none) (hq : c.conn.queryerContext = none) :
    (hasNamed nvdargs = true →
      connection.ExecContext c ctx q nvdargs =
        (.error Err.namedParams, [Event.connExecCtx q nvdargs none (some Err.namedParams)]) ∧
      connection.QueryContext c ctx q nvdargs =
        (.error Err.namedParams, [Event.connQueryCtx q nvdargs (some Err.namedParams)])) ∧
    (∀ e : Err, hasNamed nvdargs = false → ctx = some e →
      connection.ExecContext c ctx q nvdargs =
        (.error e, [Event.connExecCtx q nvdargs none none]) ∧
      connection.QueryContext c ctx q nvdargs =
        (.error e, [Event.connQueryCtx q nvdargs none])) ∧
    (hasNamed nvdargs = false → ctx = none →
      connection.ExecContext c ctx q nvdargs =
        ((connection.Exec c q (nvdargs.map NamedValue.value)).1,
          (connection.Exec c q (nvdargs.map NamedValue.value)).2 ++
            [Event.connExecCtx q nvdargs none none]) ∧
      connection.QueryContext c ctx q nvdargs =
        ((connection.Query c q (nvdargs.map NamedValue.value)).1,
          (connection.Query c q (nvdargs.map NamedValue.value)).2 ++
            [Event.connQueryCtx q nvdargs none])) := by
  refine ⟨?_, ?_, ?_⟩
  · intro h
    have hn := namedValueToValue_of_named nvdargs h
    constructor
    · simp [connection.ExecContext, hx, hn]
    · simp [connection.QueryContext, hq, hn]
  · intro e _ hctx
    subst hctx
    have hn := namedValueToValue_of_unnamed nvdargs (by assumption)
    constructor
    · simp [connection.ExecContext, hx, hn]
    · simp [connection.QueryContext, hq, hn]
  · intro h hctx
    subst hctx
    have hn := namedValueToValue_of_unnamed nvdargs h
    constructor
    · simp [connection.ExecContext, hx, hn]
    · simp [connection.QueryContext, hq, hn]

/-- C1 witness: the fallback order evaluated on a concrete backend that
implements only the plain capabilities, with a named parameter and a
cancelled context present at once: the named-parameter error wins. -/
theorem claim_C1_witness :
    connPlain.conn.execerContext = none ∧ connPlain.conn.queryerContext = none ∧
    hasNamed nvNamed = true ∧
    connection.ExecContext connPlain (some Err.canceled) "q" nvNamed =
      (.error Err.namedParams, [Event.connExecCtx "q" nvNamed none (some Err.namedParams)]) := by
  refine ⟨rfl, rfl, by decide, ?_⟩
  exact ((claim_C1_context_fallback_order connPlain (some Err.canceled) "q" nvNamed
    rfl rfl).1 (by decide)).1

end Sqltee
namespace Sqltee

/-- C2 counterexample: an ExecContext call on a backend lacking
ExecerContext with an already-cancelled context returns the context's
error, invokes no backend, and emits exactly one log record, but that
record carries a nil error, not the context's error: the cancellation
return in the source does not assign the deferred log's error variable. -/
theorem claim_C2_counterexample :
    (connection.ExecContext connPlain (some Err.canceled) "q" nvUnnamed).1 =
      .error Err.canceled ∧
    backendCalls (connection.ExecContext connPlain (some Err.canceled) "q" nvUnnamed).2 = [] ∧
    (connection.ExecContext connPlain (some Err.canceled) "q" nvUnnamed).2 =
      [Event.connExecCtx "q" nvUnnamed none none] ∧
    ¬ (connection.ExecContext connPlain (some Err.canceled) "q" nvUnnamed).2 =
      [Event.connExecCtx "q" nvUnnamed none (some Err.canceled)] := by
  decide

/-- C2 amended: an ExecContext call, at connection or statement level, on a
backend lacking the context-aware capability and with an already-cancelled
context returns the context's own error, never invokes the backend, and
emits exactly one log record, and that record carries a nil error (not the
context's error), because the cancellation return bypasses the deferred
log's error variable. -/
theorem claim_C2_amended (c : connection) (s : statement) (ctx : Ctx) (e : Err)
    (q : String) (nvdargs : List NamedValue)
    (hc : c.conn.execerContext = none) (hs : s.stmt.stmtExecContext = none)
    (hn : hasNamed nvdargs = false) (hctx : ctx = some e) :
    connection.ExecContext c ctx q nvdargs =
      (.error e, [Event.connExecCtx q nvdargs none none]) ∧
    statement.ExecContext s ctx nvdargs =
      (.error e, [Event.stmtExecCtx s.query nvdargs none none]) ∧
    backendCalls (connection.ExecContext c ctx q nvdargs).2 = [] ∧
    backendCalls (statement.ExecContext s ctx nvdargs).2 = [] := by
  subst hctx
  have hnv := namedValueToValue_of_unnamed nvdargs hn
  refine ⟨?_, ?_, ?_, ?_⟩ <;>
    simp [connection.ExecContext, statement.ExecContext, hc, hs, hnv,
      backendCalls, Event.isBackend]

/-- C2 amended witness: evaluated at a concrete backend without
ExecerContext or StmtExecContext, an unnamed parameter and a cancelled
context. -/
theorem claim_C2_witness :
    connPlain.conn.execerContext = none ∧ stmt0.stmtExecContext = none ∧
    hasNamed nvUnnamed = false ∧
    (connection.ExecContext connPlain (some Err.deadlineExceeded) "q" nvUnnamed =
      (.error Err.deadlineExceeded, [Event.connExecCtx "q" nvUnnamed none none]) ∧
    statement.ExecContext (statement.mk "s" stmt0) (some Err.deadlineExceeded) nvUnnamed =
      (.error Err.deadlineExceeded, [Event.stmtExecCtx "s" nvUnnamed none none]) ∧
    backendCalls (connection.ExecContext connPlain (some Err.deadlineExceeded) "q" nvUnnamed).2 = [] ∧
    backendCalls (statement.ExecContext (statement.mk "s" stmt0) (some Err.deadlineExceeded) nvUnnamed).2 = []) := by
  refine ⟨rfl, rfl, by decide, ?_⟩
  exact claim_C2_amended connPlain (statement.mk "s" stmt0) (some Err.deadlineExceeded)
    Err.deadlineExceeded "q" nvUnnamed rfl rfl (by decide) rfl

/-- C7: BeginTx on a backend without the ConnBeginTx capability silently
degrades to the plain Begin, still emits its single log record under the
context operation name conn-begin-tx, fails only when the backend's Begin
itself fails, and on success wraps the returned transaction in the proxy
wrapper. -/
theorem claim_C7_begin_tx_degrade (c : connection) (ctx : Ctx) (opts : TxOptions)
    (h : c.conn.connBeginTx = none) :
    (∀ t, c.conn.begin = .ok t →
      connection.BeginTx c ctx opts =
        (.ok (transaction.mk t), [Event.bBegin, Event.connBeginTx opts none])) ∧
    (∀ e, c.conn.begin = .error e →
      connection.BeginTx c ctx opts =
        (.error e, [Event.bBegin, Event.connBeginTx opts (some e)])) ∧
    eventName (Event.connBeginTx opts none) = "conn-begin-tx" := by
  refine ⟨?_, ?_, rfl⟩
  · intro t ht
    simp [connection.BeginTx, h, ht]
  · intro e he
    simp [connection.BeginTx, h, he]

/-- C7 witness: evaluated at a concrete backend without ConnBeginTx whose
Begin succeeds. -/
theorem claim_C7_witness :
    connPlain.conn.connBeginTx = none ∧ connPlain.conn.begin = .ok tx0 ∧
    connection.BeginTx connPlain none 0 =
      (.ok (transaction.mk tx0), [Event.bBegin, Event.connBeginTx 0 none]) := by
  refine ⟨rfl, rfl, ?_⟩
  exact (claim_C7_begin_tx_degrade connPlain none 0 rfl).1 tx0 rfl

end Sqltee
namespace Sqltee

/-- C8: a connection-level plain Exec (or Query) on a backend implementing
no Execer (or Queryer) at all fails with driver.ErrSkip without invoking
the backend, its log record carrying a nil error; and when the degrade
path exists (ExecerContext absent but Execer present, unnamed parameters,
live context), the missing context capability is never surfaced to the
caller: the outcome is exactly the backend Execer's own outcome. -/
theorem claim_C8_skip_without_capability (c1 c2 : connection) (q : String)
    (dargs : List Value) (nvdargs : List NamedValue)
    (f : String → List Value → Except Err ResultData)
    (h1e : c1.conn.execer = none) (h1q : c1.conn.queryer = none)
    (h2x : c2.conn.execerContext = none) (h2f : c2.conn.execer = some f)
    (hn : hasNamed nvdargs = false) :
    connection.Exec c1 q dargs = (.error Err.errSkip, [Event.connExec q dargs none none]) ∧
    connection.Query c1 q dargs = (.error Err.errSkip, [Event.connQuery q dargs none]) ∧
    backendCalls (connection.Exec c1 q dargs).2 = [] ∧
    backendCalls (connection.Query c1 q dargs).2 = [] ∧
    (∀ r, f q (nvdargs.map NamedValue.value) = .ok r →
      (connection.ExecContext c2 none q nvdargs).1 = .ok (result.mk r)) ∧
    (∀ e, f q (nvdargs.map NamedValue.value) = .error e →
      (connection.ExecContext c2 none q nvdargs).1 = .error e) := by
  have hnv := namedValueToValue_of_unnamed nvdargs hn
  refine ⟨?_, ?_, ?_, ?_, ?_, ?_⟩
  · simp [connection.Exec, h1e]
  · simp [connection.Query, h1q]
  · simp [connection.Exec, h1e, backendCalls, Event.isBackend]
  · simp [connection.Query, h1q, backendCalls, Event.isBackend]
  · intro r hr
    simp [connection.ExecContext, h2x, hnv, connection.Exec, h2f, hr]
  · intro e he
    simp [connection.ExecContext, h2x, hnv, connection.Exec, h2f, he]

/-- C8 witness: evaluated at a concrete backend without Execer and Queryer
(the skip signal) and one with the plain Execer only (the degrade path). -/
theorem claim_C8_witness :
    connBare.conn.execer = none ∧ connBare.conn.queryer = none ∧
    connPlain.conn.execerContext = none ∧ connPlain.conn.execer = some execFn ∧
    hasNamed nvUnnamed = false ∧
    connection.Exec connBare "q" [] =
      (.error Err.errSkip, [Event.connExec "q" [] none none]) ∧
    (connection.ExecContext connPlain none "q" nvUnnamed).1 = .ok (result.mk 7) := by
  refine ⟨rfl, rfl, rfl, rfl, by decide, ?_, ?_⟩
  · exact (claim_C8_skip_without_capability connBare connPlain "q" [] nvUnnamed execFn
      rfl rfl rfl rfl (by decide)).1
  · exact (claim_C8_skip_without_capability connBare connPlain "q" [] nvUnnamed execFn
      rfl rfl rfl rfl (by decide)).2.2.2.2.1 7 rfl

/-- C10: an ExecContext (or QueryContext) call that takes the degrade path
and reaches the plain backend capability emits exactly two log records,
first the plain operation's record, then the context operation's record:
the fallback calls the proxy's own plain method, whose deferred log runs
before the outer deferred context log. -/
theorem claim_C10_degrade_two_records (c : connection) (q : String)
    (nvdargs : List NamedValue)
    (f : String → List Value → Except Err ResultData)
    (g : String → List Value → Except Err BackendRows)
    (hx : c.conn.execerContext = none) (hq : c.conn.queryerContext = none)
    (hf : c.conn.execer = some f) (hg : c.conn.queryer = some g)
    (hn : hasNamed nvdargs = false) :
    (logs (connection.ExecContext c none q nvdargs).2).map eventName =
      ["conn-exec", "conn-exec-context"] ∧
    (logs (connection.QueryContext c none q nvdargs).2).map eventName =
      ["conn-query", "conn-query-context"] := by
  have hnv := namedValueToValue_of_unnamed nvdargs hn
  constructor
  · rcases hr : f q (nvdargs.map NamedValue.value) with e | r <;>
      simp [connection.ExecContext, hx, hnv, connection.Exec, hf, hr,
        logs, Event.isBackend, eventName]
  · rcases hr : g q (nvdargs.map NamedValue.value) with e | r <;>
      simp [connection.QueryContext, hq, hnv, connection.Query, hg, hr,
        logs, Event.isBackend, eventName]

/-- C10 witness: the two-record traces evaluated at a concrete backend
with only the plain Execer and Queryer capabilities. -/
theorem claim_C10_witness :
    connPlain.conn.execerContext = none ∧ connPlain.conn.queryerContext = none ∧
    connPlain.conn.execer = some execFn ∧ connPlain.conn.queryer = some queryFn ∧
    hasNamed nvUnnamed = false ∧
    (logs (connection.ExecContext connPlain none "q" nvUnnamed).2).map eventName =
      ["conn-exec", "conn-exec-context"] ∧
    (logs (connection.QueryContext connPlain none "q" nvUnnamed).2).map eventName =
      ["conn-query", "conn-query-context"] := by
  refine ⟨rfl, rfl, rfl, rfl, by decide, ?_, ?_⟩
  · exact (claim_C10_degrade_two_records connPlain "q" nvUnnamed execFn queryFn
      rfl rfl rfl rfl (by decide)).1
  · exact (claim_C10_degrade_two_records connPlain "q" nvUnnamed execFn queryFn
      rfl rfl rfl rfl (by decide)).2

end Sqltee
namespace Sqltee

/-- C4 counterexample: connection.Exec on a backend with no Execer returns
driver.ErrSkip to the caller, but its single Logger invocation carries a
nil error, not that returned error, so the Logger is not invoked with the
same error the caller receives. -/
theorem claim_C4_counterexample :
    (connection.Exec connBare "q" []).1 = .error Err.errSkip ∧
    (connection.Exec connBare "q" []).2 = [Event.connExec "q" [] none none] ∧
    ¬ (connection.Exec connBare "q" []).2 =
      [Event.connExec "q" [] none (some Err.errSkip)] := by
  decide

/-- C4 amended: every proxy operation (driver open; connection prepare,
prepare-context, close, begin, begin-tx, exec, exec-context, ping, query,
query-context; statement close, exec, exec-context, query, query-context;
row next; transaction commit and rollback) invokes the Logger exactly once
per method call under its own operation name; whenever the operation itself
invokes the backend capability, or fails the named-parameter conversion,
the error returned to the caller is that error unchanged and the log
record carries that same error, on success and on failure alike. Three
paths forced by the code deviate from carrying the same error: plain exec
and query with no capability return driver.ErrSkip while the record
carries a nil error; a context-variant degrade aborted by a cancelled
context returns the context error while the record carries nil; and a
context variant degrading through the plain method returns the plain
method outcome, whose error is carried by the plain operation record,
while the context operation record carries nil. -/
theorem claim_C4_amended :
    (∀ (d : Driver) (name : String),
      (Driver.Open d name).1 = (d.driver.openConn name).map connection.mk ∧
      logSummary (Driver.Open d name).2 = [("driver-open", errOf (d.driver.openConn name))]) ∧
    (∀ (c : connection) (q : String),
      (connection.Prepare c q).1 = (c.conn.prepare q).map (statement.mk q) ∧
      logSummary (connection.Prepare c q).2 = [("conn-prepare", errOf (c.conn.prepare q))]) ∧
    (∀ (c : connection) (ctx : Ctx) (q : String) f, c.conn.connPrepareContext = some f →
      (connection.PrepareContext c ctx q).1 = (f ctx q).map (statement.mk "") ∧
      logSummary (connection.PrepareContext c ctx q).2 =
        [("conn-prepare-context", errOf (f ctx q))]) ∧
    (∀ (c : connection) (ctx : Ctx) (q : String), c.conn.connPrepareContext = none →
      (connection.PrepareContext c ctx q).1 = (connection.Prepare c q).1 ∧
      logSummary (connection.PrepareContext c ctx q).2 =
        logSummary (connection.Prepare c q).2 ++ [("conn-prepare-context", none)]) ∧
    (∀ c : connection,
      (connection.Close c).1 = c.conn.close ∧
      logSummary (connection.Close c).2 = [("conn-close", c.conn.close)]) ∧
    (∀ c : connection,
      (connection.Begin c).1 = c.conn.begin.map transaction.mk ∧
      logSummary (connection.Begin c).2 = [("conn-begin", errOf c.conn.begin)]) ∧
    (∀ (c : connection) (ctx : Ctx) (opts : TxOptions) f, c.conn.connBeginTx = some f →
      (connection.BeginTx c ctx opts).1 = (f ctx opts).map transaction.mk ∧
      logSummary (connection.BeginTx c ctx opts).2 =
        [("conn-begin-tx", errOf (f ctx opts))]) ∧
    (∀ (c : connection) (ctx : Ctx) (opts : TxOptions), c.conn.connBeginTx = none →
      (connection.BeginTx c ctx opts).1 = c.conn.begin.map transaction.mk ∧
      logSummary (connection.BeginTx c ctx opts).2 =
        [("conn-begin-tx", errOf c.conn.begin)]) ∧
    (∀ (c : connection) (q : String) (dargs : List Value) f, c.conn.execer = some f →
      (connection.Exec c q dargs).1 = (f q dargs).map result.mk ∧
      logSummary (connection.Exec c q dargs).2 = [("conn-exec", errOf (f q dargs))]) ∧
    (∀ (c : connection) (q : String) (dargs : List Value), c.conn.execer = none →
      (connection.Exec c q dargs).1 = .error Err.errSkip ∧
      logSummary (connection.Exec c q dargs).2 = [("conn-exec", none)]) ∧
    (∀ (c : connection) (ctx : Ctx) (q : String) (nvdargs : List NamedValue) f,
      c.conn.execerContext = some f →
      (connection.ExecContext c ctx q nvdargs).1 = (f ctx q nvdargs).map result.mk ∧
      logSummary (connection.ExecContext c ctx q nvdargs).2 =
        [("conn-exec-context", errOf (f ctx q nvdargs))]) ∧
    (∀ (c : connection) (ctx : Ctx) (q : String) (nvdargs : List NamedValue),
      c.conn.execerContext = none → hasNamed nvdargs = true →
      (connection.ExecContext c ctx q nvdargs).1 = .error Err.namedParams ∧
      logSummary (connection.ExecContext c ctx q nvdargs).2 =
        [("conn-exec-context", some Err.namedParams)]) ∧
    (∀ (c : connection) (e : Err) (q : String) (nvdargs : List NamedValue),
      c.conn.execerContext = none → hasNamed nvdargs = false →
      (connection.ExecContext c (some e) q nvdargs).1 = .error e ∧
      logSummary (connection.ExecContext c (some e) q nvdargs).2 =
        [("conn-exec-context", none)]) ∧
    (∀ (c : connection) (q : String) (nvdargs : List NamedValue),
      c.conn.execerContext = none → hasNamed nvdargs = false →
      (connection.ExecContext c none q nvdargs).1 =
        (connection.Exec c q (nvdargs.map NamedValue.value)).1 ∧
      logSummary (connection.ExecContext c none q nvdargs).2 =
        logSummary (connection.Exec c q (nvdargs.map NamedValue.value)).2 ++
          [("conn-exec-context", none)]) ∧
    (∀ (c : connection) (ctx : Ctx) f, c.conn.pinger = some f →
      (connection.Ping c ctx).1 = f ctx ∧
      logSummary (connection.Ping c ctx).2 = [("conn-ping", f ctx)]) ∧
    (∀ (c : connection) (ctx : Ctx), c.conn.pinger = none →
      (connection.Ping c ctx).1 = none ∧
      logSummary (connection.Ping c ctx).2 = [("conn-ping", none)]) ∧
    (∀ (c : connection) (q : String) (dargs : List Value) f, c.conn.queryer = some f →
      (connection.Query c q dargs).1 = (f q dargs).map rowsIterator.mk ∧
      logSummary (connection.Query c q dargs).2 = [("conn-query", errOf (f q dargs))]) ∧
    (∀ (c : connection) (q : String) (dargs : List Value), c.conn.queryer = none →
      (connection.Query c q dargs).1 = .error Err.errSkip ∧
      logSummary (connection.Query c q dargs).2 = [("conn-query", none)]) ∧
    (∀ (c : connection) (ctx : Ctx) (q : String) (nvdargs : List NamedValue) f,
      c.conn.queryerContext = some f →
      (connection.QueryContext c ctx q nvdargs).1 = (f ctx q nvdargs).map rowsIterator.mk ∧
      logSummary (connection.QueryContext c ctx q nvdargs).2 =
        [("conn-query-context", errOf (f ctx q nvdargs))]) ∧
    (∀ (c : connection) (ctx : Ctx) (q : String) (nvdargs : List NamedValue),
      c.conn.queryerContext = none → hasNamed nvdargs = true →
      (connection.QueryContext c ctx q nvdargs).1 = .error Err.namedParams ∧
      logSummary (connection.QueryContext c ctx q nvdargs).2 =
        [("conn-query-context", some Err.namedParams)]) ∧
    (∀ (c : connection) (e : Err) (q : String) (nvdargs : List NamedValue),
      c.conn.queryerContext = none → hasNamed nvdargs = false →
      (connection.QueryContext c (some e) q nvdargs).1 = .error e ∧
      logSummary (connection.QueryContext c (some e) q nvdargs).2 =
        [("conn-query-context", none)]) ∧
    (∀ (c : connection) (q : String) (nvdargs : List NamedValue),
      c.conn.queryerContext = none → hasNamed nvdargs = false →
      (connection.QueryContext c none q nvdargs).1 =
        (connection.Query c q (nvdargs.map NamedValue.value)).1 ∧
      logSummary (connection.QueryContext c none q nvdargs).2 =
        logSummary (connection.Query c q (nvdargs.map NamedValue.value)).2 ++
          [("conn-query-context", none)]) ∧
    (∀ s : statement,
      (statement.Close s).1 = s.stmt.close ∧
      logSummary (statement.Close s).2 = [("stmt-close", s.stmt.close)]) ∧
    (∀ (s : statement) (dargs : List Value),
      (statement.Exec s dargs).1 = (s.stmt.exec dargs).map result.mk ∧
      logSummary (statement.Exec s dargs).2 = [("stmt-exec", errOf (s.stmt.exec dargs))]) ∧
    (∀ (s : statement) (ctx : Ctx) (nvdargs : List NamedValue) f,
      s.stmt.stmtExecContext = some f →
      (statement.ExecContext s ctx nvdargs).1 = (f ctx nvdargs).map result.mk ∧
      logSummary (statement.ExecContext s ctx nvdargs).2 =
        [("stmt-exec-context", errOf (f ctx nvdargs))]) ∧
    (∀ (s : statement) (ctx : Ctx) (nvdargs : List NamedValue),
      s.stmt.stmtExecContext = none → hasNamed nvdargs = true →
      (statement.ExecContext s ctx nvdargs).1 = .error Err.namedParams ∧
      logSummary (statement.ExecContext s ctx nvdargs).2 =
        [("stmt-exec-context", some Err.namedParams)]) ∧
    (∀ (s : statement) (e : Err) (nvdargs : List NamedValue),
      s.stmt.stmtExecContext = none → hasNamed nvdargs = false →
      (statement.ExecContext s (some e) nvdargs).1 = .error e ∧
      logSummary (statement.ExecContext s (some e) nvdargs).2 =
        [("stmt-exec-context", none)]) ∧
    (∀ (s : statement) (nvdargs : List NamedValue),
      s.stmt.stmtExecContext = none → hasNamed nvdargs = false →
      (statement.ExecContext s none nvdargs).1 =
        (statement.Exec s (nvdargs.map NamedValue.value)).1 ∧
      logSummary (statement.ExecContext s none nvdargs).2 =
        logSummary (statement.Exec s (nvdargs.map NamedValue.value)).2 ++
          [("stmt-exec-context", none)]) ∧
    (∀ (s : statement) (dargs : List Value),
      (statement.Query s dargs).1 = (s.stmt.query dargs).map rowsIterator.mk ∧
      logSummary (statement.Query s dargs).2 = [("stmt-query", errOf (s.stmt.query dargs))]) ∧
    (∀ (s : statement) (ctx : Ctx) (nvdargs : List NamedValue) f,
      s.stmt.stmtQueryContext = some f →
      (statement.QueryContext s ctx nvdargs).1 = (f ctx nvdargs).map rowsIterator.mk ∧
      logSummary (statement.QueryContext s ctx nvdargs).2 =
        [("stmt-query-context", errOf (f ctx nvdargs))]) ∧
    (∀ (s : statement) (ctx : Ctx) (nvdargs : List NamedValue),
      s.stmt.stmtQueryContext = none → hasNamed nvdargs = true →
      (statement.QueryContext s ctx nvdargs).1 = .error Err.namedParams ∧
      logSummary (statement.QueryContext s ctx nvdargs).2 =
        [("stmt-query-context", some Err.namedParams)]) ∧
    (∀ (s : statement) (e : Err) (nvdargs : List NamedValue),
      s.stmt.stmtQueryContext = none → hasNamed nvdargs = false →
      (statement.QueryContext s (some e) nvdargs).1 = .error e ∧
      logSummary (statement.QueryContext s (some e) nvdargs).2 =
        [("stmt-query-context", none)]) ∧
    (∀ (s : statement) (nvdargs : List NamedValue),
      s.stmt.stmtQueryContext = none → hasNamed nvdargs = false →
      (statement.QueryContext s none nvdargs).1 =
        (statement.Query s (nvdargs.map NamedValue.value)).1 ∧
      logSummary (statement.QueryContext s none nvdargs).2 =
        logSummary (statement.Query s (nvdargs.map NamedValue.value)).2 ++
          [("stmt-query-context", none)]) ∧
    (∀ (r : rowsIterator) (dest : List Value),
      (rowsIterator.Next r dest).1 = (r.rows.next dest).2 ∧
      logSummary (rowsIterator.Next r dest).2 = [("rows-next", (r.rows.next dest).2)]) ∧
    (∀ t : transaction,
      (transaction.Commit t).1 = t.tx.commit ∧
      logSummary (transaction.Commit t).2 = [("tx-commit", t.tx.commit)]) ∧
    (∀ t : transaction,
      (transaction.Rollback t).1 = t.tx.rollback ∧
      logSummary (transaction.Rollback t).2 = [("tx-rollback", t.tx.rollback)]) := by
  refine ⟨?_, ?_, ?_, ?_, ?_, ?_, ?_, ?_, ?_, ?_, ?_, ?_, ?_, ?_, ?_, ?_, ?_, ?_,
    ?_, ?_, ?_, ?_, ?_, ?_, ?_, ?_, ?_, ?_, ?_, ?_, ?_, ?_, ?_, ?_, ?_, ?_⟩
  · intro d name
    rcases h : d.driver.openConn name with e | bc <;>
      simp [Driver.Open, h, logSummary, logs, Event.isBackend, eventName, eventErrField, errOf, Except.map]
  · intro c q
    rcases h : c.conn.prepare q with e | st <;>
      simp [connection.Prepare, h, logSummary, logs, Event.isBackend, eventName,
        eventErrField, errOf, Except.map]
  · intro c ctx q f hf
    rcases h : f ctx q with e | st <;>
      simp [connection.PrepareContext, hf, h, logSummary, logs, Event.isBackend,
        eventName, eventErrField, errOf, Except.map]
  · intro c ctx q hn
    simp [connection.PrepareContext, hn, logSummary, logs, List.filter_append,
      Event.isBackend, eventName, eventErrField]
  · intro c
    simp [connection.Close, logSummary, logs, Event.isBackend, eventName, eventErrField]
  · intro c
    rcases h : c.conn.begin with e | t <;>
      simp [connection.Begin, h, logSummary, logs, Event.isBackend, eventName,
        eventErrField, errOf, Except.map]
  · intro c ctx opts f hf
    rcases h : f ctx opts with e | t <;>
      simp [connection.BeginTx, hf, h, logSummary, logs, Event.isBackend, eventName,
        eventErrField, errOf, Except.map]
  · intro c ctx opts hn
    rcases h : c.conn.begin with e | t <;>
      simp [connection.BeginTx, hn, h, logSummary, logs, Event.isBackend, eventName,
        eventErrField, errOf, Except.map]
  · intro c q dargs f hf
    rcases h : f q dargs with e | r <;>
      simp [connection.Exec, hf, h, logSummary, logs, Event.isBackend, eventName,
        eventErrField, errOf, Except.map]
  · intro c q dargs hn
    simp [connection.Exec, hn, logSummary, logs, Event.isBackend, eventName, eventErrField]
  · intro c ctx q nvdargs f hf
    rcases h : f ctx q nvdargs with e | r <;>
      simp [connection.ExecContext, hf, h, logSummary, logs, Event.isBackend, eventName,
        eventErrField, errOf, Except.map]
  · intro c ctx q nvdargs hx hnamed
    have hnv := namedValueToValue_of_named nvdargs hnamed
    simp [connection.ExecContext, hx, hnv, logSummary, logs, Event.isBackend, eventName,
      eventErrField]
  · intro c e q nvdargs hx hnamed
    have hnv := namedValueToValue_of_unnamed nvdargs hnamed
    simp [connection.ExecContext, hx, hnv, logSummary, logs, Event.isBackend, eventName,
      eventErrField]
  · intro c q nvdargs hx hnamed
    have hnv := namedValueToValue_of_unnamed nvdargs hnamed
    simp [connection.ExecContext, hx, hnv, logSummary, logs, List.filter_append,
      Event.isBackend, eventName, eventErrField]
  · intro c ctx f hf
    simp [connection.Ping, hf, logSummary, logs, Event.isBackend, eventName, eventErrField]
  · intro c ctx hn
    simp [connection.Ping, hn, logSummary, logs, Event.isBackend, eventName, eventErrField]
  · intro c q dargs f hf
    rcases h : f q dargs with e | r <;>
      simp [connection.Query, hf, h, logSummary, logs, Event.isBackend, eventName,
        eventErrField, errOf, Except.map]
  · intro c q dargs hn
    simp [connection.Query, hn, logSummary, logs, Event.isBackend, eventName, eventErrField]
  · intro c ctx q nvdargs f hf
    rcases h : f ctx q nvdargs with e | r <;>
      simp [connection.QueryContext, hf, h, logSummary, logs, Event.isBackend, eventName,
        eventErrField, errOf, Except.map]
  · intro c ctx q nvdargs hx hnamed
    have hnv := namedValueToValue_of_named nvdargs hnamed
    simp [connection.QueryContext, hx, hnv, logSummary, logs, Event.isBackend, eventName,
      eventErrField]
  · intro c e q nvdargs hx hnamed
    have hnv := namedValueToValue_of_unnamed nvdargs hnamed
    simp [connection.QueryContext, hx, hnv, logSummary, logs, Event.isBackend, eventName,
      eventErrField]
  · intro c q nvdargs hx hnamed
    have hnv := namedValueToValue_of_unnamed nvdargs hnamed
    simp [connection.QueryContext, hx, hnv, logSummary, logs, List.filter_append,
      Event.isBackend, eventName, eventErrField]
  · intro s
    simp [statement.Close, logSummary, logs, Event.isBackend, eventName, eventErrField]
  · intro s dargs
    rcases h : s.stmt.exec dargs with e | r <;>
      simp [statement.Exec, h, logSummary, logs, Event.isBackend, eventName,
        eventErrField, errOf, Except.map]
  · intro s ctx nvdargs f hf
    rcases h : f ctx nvdargs with e | r <;>
      simp [statement.ExecContext, hf, h, logSummary, logs, Event.isBackend, eventName,
        eventErrField, errOf, Except.map]
  · intro s ctx nvdargs hx hnamed
    have hnv := namedValueToValue_of_named nvdargs hnamed
    simp [statement.ExecContext, hx, hnv, logSummary, logs, Event.isBackend, eventName,
      eventErrField]
  · intro s e nvdargs hx hnamed
    have hnv := namedValueToValue_of_unnamed nvdargs hnamed
    simp [statement.ExecContext, hx, hnv, logSummary, logs, Event.isBackend, eventName,
      eventErrField]
  · intro s nvdargs hx hnamed
    have hnv := namedValueToValue_of_unnamed nvdargs hnamed
    simp [statement.ExecContext, hx, hnv, logSummary, logs, List.filter_append,
      Event.isBackend, eventName, eventErrField]
  · intro s dargs
    rcases h : s.stmt.query dargs with e | r <;>
      simp [statement.Query, h, logSummary, logs, Event.isBackend, eventName,
        eventErrField, errOf, Except.map]
  · intro s ctx nvdargs f hf
    rcases h : f ctx nvdargs with e | r <;>
      simp [statement.QueryContext, hf, h, logSummary, logs, Event.isBackend, eventName,
        eventErrField, errOf, Except.map]
  · intro s ctx nvdargs hx hnamed
    have hnv := namedValueToValue_of_named nvdargs hnamed
    simp [statement.QueryContext, hx, hnv, logSummary, logs, Event.isBackend, eventName,
      eventErrField]
  · intro s e nvdargs hx hnamed
    have hnv := namedValueToValue_of_unnamed nvdargs hnamed
    simp [statement.QueryContext, hx, hnv, logSummary, logs, Event.isBackend, eventName,
      eventErrField]
  · intro s nvdargs hx hnamed
    have hnv := namedValueToValue_of_unnamed nvdargs hnamed
    simp [statement.QueryContext, hx, hnv, logSummary, logs, List.filter_append,
      Event.isBackend, eventName, eventErrField]
  · intro r dest
    simp [rowsIterator.Next, logSummary, logs, Event.isBackend, eventName, eventErrField]
  · intro t
    simp [transaction.Commit, logSummary, logs, Event.isBackend, eventName, eventErrField]
  · intro t
    simp [transaction.Rollback, logSummary, logs, Event.isBackend, eventName, eventErrField]

/-- C4 amended witness: evaluated at concrete backends, one with the
Execer capability succeeding, one with neither Execer nor Queryer. -/
theorem claim_C4_witness :
    connPlain.conn.execer = some execFn ∧ connBare.conn.execer = none ∧
    connBare.conn.queryer = none ∧
    (connection.Exec connPlain "q" []).1 = .ok (result.mk 7) ∧
    logSummary (connection.Exec connPlain "q" []).2 = [("conn-exec", none)] ∧
    (connection.Exec connBare "q" []).1 = .error Err.errSkip ∧
    logSummary (connection.Exec connBare "q" []).2 = [("conn-exec", none)] ∧
    (connection.Query connBare "q" []).1 = .error Err.errSkip ∧
    logSummary (connection.Query connBare "q" []).2 = [("conn-query", none)] := by
  obtain ⟨-, -, -, -, -, -, -, -, hexec, hskip, -, -, -, -, -, -, -, hqskip, -⟩ :=
    claim_C4_amended
  refine ⟨rfl, rfl, rfl, ?_, ?_, ?_, ?_, ?_, ?_⟩
  · exact ((hexec connPlain "q" [] execFn rfl).1).trans (by decide)
  · exact ((hexec connPlain "q" [] execFn rfl).2).trans (by decide)
  · exact (hskip connBare "q" [] rfl).1
  · exact (hskip connBare "q" [] rfl).2
  · exact (hqskip connBare "q" [] rfl).1
  · exact (hqskip connBare "q" [] rfl).2

end Sqltee
namespace Sqltee

/-! The query text carried by statement-level log records always comes
from the statement wrapper's query field. -/

theorem stmtExec_log_query (s : statement) (dargs : List Value) :
    ∀ ev ∈ logs (statement.Exec s dargs).2, eventQueryField ev = some s.query := by
  rcases h : s.stmt.exec dargs with e | r <;>
    simp [statement.Exec, h, logs, Event.isBackend, eventQueryField]

theorem stmtQuery_log_query (s : statement) (dargs : List Value) :
    ∀ ev ∈ logs (statement.Query s dargs).2, eventQueryField ev = some s.query := by
  rcases h : s.stmt.query dargs with e | r <;>
    simp [statement.Query, h, logs, Event.isBackend, eventQueryField]

theorem stmtExecCtx_log_query (s : statement) (ctx : Ctx) (nvdargs : List NamedValue) :
    ∀ ev ∈ logs (statement.ExecContext s ctx nvdargs).2, eventQueryField ev = some s.query := by
  rcases hcap : s.stmt.stmtExecContext with _ | f
  · rcases hnv : namedValueToValue nvdargs with e | dargs
    · simp [statement.ExecContext, hcap, hnv, logs, Event.isBackend, eventQueryField]
    · rcases hctx : ctx with _ | ce
      · intro ev hev
        simp only [statement.ExecContext, hcap, hnv] at hev
        rw [logs, List.filter_append] at hev
        rcases List.mem_append.mp hev with h | h
        · exact stmtExec_log_query s dargs ev h
        · simp only [List.filter_cons, List.filter_nil] at h
          simp only [Event.isBackend] at h
          simp only [Bool.not_false, if_pos] at h
          rcases List.mem_singleton.mp h with rfl
          rfl
      · simp [statement.ExecContext, hcap, hnv, logs, Event.isBackend, eventQueryField]
  · rcases hr : f ctx nvdargs with e | r <;>
      simp [statement.ExecContext, hcap, hr, logs, Event.isBackend, eventQueryField]

theorem stmtQueryCtx_log_query (s : statement) (ctx : Ctx) (nvdargs : List NamedValue) :
    ∀ ev ∈ logs (statement.QueryContext s ctx nvdargs).2, eventQueryField ev = some s.query := by
  rcases hcap : s.stmt.stmtQueryContext with _ | f
  · rcases hnv : namedValueToValue nvdargs with e | dargs
    · simp [statement.QueryContext, hcap, hnv, logs, Event.isBackend, eventQueryField]
    · rcases hctx : ctx with _ | ce
      · intro ev hev
        simp only [statement.QueryContext, hcap, hnv] at hev
        rw [logs, List.filter_append] at hev
        rcases List.mem_append.mp hev with h | h
        · exact stmtQuery_log_query s dargs ev h
        · simp only [List.filter_cons, List.filter_nil] at h
          simp only [Event.isBackend] at h
          simp only [Bool.not_false, if_pos] at h
          rcases List.mem_singleton.mp h with rfl
          rfl
      · simp [statement.QueryContext, hcap, hnv, logs, Event.isBackend, eventQueryField]
  · rcases hr : f ctx nvdargs with e | r <;>
      simp [statement.QueryContext, hcap, hr, logs, Event.isBackend, eventQueryField]

/-- C9: when the backend implements ConnPrepareContext, the proxy
statement wrapper is built without the query text, so every statement
level log record (Exec, ExecContext, Query, QueryContext) for that
statement carries the empty query string, since such records always carry
the wrapper's query field; a statement obtained through plain Prepare, or
through the PrepareContext degrade path, carries the original query. -/
theorem claim_C9_prepare_context_empty_query
    (c c2 : connection) (ctx : Ctx) (q : String)
    (f : Ctx → String → Except Err BackendStmt) (bst bst2 : BackendStmt)
    (hcap : c.conn.connPrepareContext = some f) (hf : f ctx q = .ok bst)
    (hnone : c2.conn.connPrepareContext = none) (hp2 : c2.conn.prepare q = .ok bst2) :
    connection.PrepareContext c ctx q =
      (.ok (statement.mk "" bst), [Event.bPrepareCtx q, Event.connPrepareCtx q none]) ∧
    (∀ (s : statement) (dargs : List Value) (nv : List NamedValue) (sctx : Ctx) (ev : Event),
      (ev ∈ logs (statement.Exec s dargs).2 ∨
       ev ∈ logs (statement.ExecContext s sctx nv).2 ∨
       ev ∈ logs (statement.Query s dargs).2 ∨
       ev ∈ logs (statement.QueryContext s sctx nv).2) →
      eventQueryField ev = some s.query) ∧
    connection.Prepare c2 q =
      (.ok (statement.mk q bst2), [Event.bPrepare q, Event.connPrepare q none]) ∧
    connection.PrepareContext c2 ctx q =
      (.ok (statement.mk q bst2),
        [Event.bPrepare q, Event.connPrepare q none, Event.connPrepareCtx q none]) := by
  refine ⟨?_, ?_, ?_, ?_⟩
  · simp [connection.PrepareContext, hcap, hf]
  · intro s dargs nv sctx ev hev
    rcases hev with h | h | h | h
    · exact stmtExec_log_query s dargs ev h
    · exact stmtExecCtx_log_query s sctx nv ev h
    · exact stmtQuery_log_query s dargs ev h
    · exact stmtQueryCtx_log_query s sctx nv ev h
  · simp [connection.Prepare, hp2]
  · simp [connection.PrepareContext, hnone, connection.Prepare, hp2]

/-- C9 witness: evaluated at a concrete backend with ConnPrepareContext
(wrapper holds the empty query; its Exec log record carries the empty
query) and one without it (wrapper holds the original query). -/
theorem claim_C9_witness :
    connPrepCtx.conn.connPrepareContext = some prepCtxFn ∧
    prepCtxFn none "q" = .ok stmt0 ∧
    connPlain.conn.connPrepareContext = none ∧
    connPlain.conn.prepare "q" = .ok stmt0 ∧
    connection.PrepareContext connPrepCtx none "q" =
      (.ok (statement.mk "" stmt0), [Event.bPrepareCtx "q", Event.connPrepareCtx "q" none]) ∧
    eventQueryField (Event.stmtExec "" [] (some 1) none) = some "" ∧
    connection.Prepare connPlain "q" =
      (.ok (statement.mk "q" stmt0), [Event.bPrepare "q", Event.connPrepare "q" none]) := by
  have h := claim_C9_prepare_context_empty_query connPrepCtx connPlain none "q"
    prepCtxFn stmt0 stmt0 rfl rfl rfl rfl
  exact ⟨rfl, rfl, rfl, rfl, h.1,
    h.2.1 (statement.mk "" stmt0) [] nvUnnamed none
      (Event.stmtExec "" [] (some 1) none) (Or.inl (by decide)),
    h.2.2.1⟩

end Sqltee
namespace Sqltee

/-- The spec's interpolation example shape with a duplicated single-digit
placeholder: ordinals 1 through 10, so one placeholder has more than one
digit. -/
def exQuery : String := "($1,$2,$3,$4,$5,$6,$7,$8,$9,$10,$1)"

/-- Ten integer parameter values for exQuery. -/
def exValues : List GoValue := [GoValue.intv 1, GoValue.intv 2, GoValue.intv 3,
  GoValue.intv 4, GoValue.intv 5, GoValue.intv 6, GoValue.intv 7, GoValue.intv 8,
  GoValue.intv 9, GoValue.intv 10]

/-- The same ten parameters as ordinal and literal pairs in reverse scan
order, for the right-anchored variant described by the claim. -/
def exLits : List (Nat × String) := [(10, "10"), (9, "9"), (8, "8"), (7, "7"),
  (6, "6"), (5, "5"), (4, "4"), (3, "3"), (2, "2"), (1, "1")]

/-- C3 counterexample: on a query with ordinal placeholders the source's
interpolation substitutes every occurrence of each placeholder with
strings.Replace, not the rightmost remaining occurrence with a
right-anchored last-index search: on exQuery, whose placeholder of ordinal
one occurs twice, the code replaces both occurrences in one substitution,
while the right-anchored procedure described by the claim replaces only
the rightmost and leaves a placeholder substring behind, so the two
results differ. -/
theorem claim_C3_counterexample :
    (gobInterpolation "" exQuery exValues none).interpolation =
      some "(1,2,3,4,5,6,7,8,9,10,1)" ∧
    rightAnchoredInterp exQuery exLits = "($1,2,3,4,5,6,7,8,9,10,1)" ∧
    ¬ (gobInterpolation "" exQuery exValues none).interpolation =
      some (rightAnchoredInterp exQuery exLits) ∧
    ¬ (lastIndexStr (rightAnchoredInterp exQuery exLits) "$1").isNone = true := by
  decide

/-- C3 amended: interpolation of ordinal placeholders substitutes in
reverse ordinal order (the scan sequence runs from the highest ordinal
down to one), and each substitution replaces every remaining occurrence of
its placeholder text with strings.Replace rather than only the rightmost
occurrence through a right-anchored last-index search; on the spec's
example shape with ordinals one through ten the final interpolated text
contains no placeholder substring. -/
theorem claim_C3_amended :
    (∀ values : List GoValue,
      (scanSeq (positionalParams values) true).map BoundParam.ordinal =
        (List.range' 1 values.length).reverse) ∧
    (gobInterpolation "" exQuery exValues none).interpolation =
      some "(1,2,3,4,5,6,7,8,9,10,1)" ∧
    ((List.range 10).all (fun k =>
      (lastIndexStr "(1,2,3,4,5,6,7,8,9,10,1)" ("$" ++ toString (k + 1))).isNone)) = true := by
  refine ⟨?_, by decide, by decide⟩
  intro values
  simp [scanSeq, positionalParams, List.map_reverse, positionalParamsFrom_map_ordinal]

/-- C5: when any bound value fails literal formatting, the emitted log
record shows the original query text plus the raw argument list and never
a partially substituted interpolation string: the scan error empties the
interpolation before the record is assembled, whatever substitutions had
already been applied. -/
theorem claim_C5_all_or_nothing (cfg query : String) (values : List GoValue)
    (derr : Option Err)
    (hfail : values.any formatFails = true) (hq : query ≠ "") :
    (gobInterpolation cfg query values derr).interpolation = none ∧
    (gobInterpolation cfg query values derr).rawQuery = some query ∧
    (gobInterpolation cfg query values derr).args = some values := by
  have hvalsne : values ≠ [] := by
    rintro rfl
    simp at hfail
  have hmem : ∃ p ∈ scanSeq (positionalParams values) true, formatFails p.value = true := by
    obtain ⟨v, hv, hfv⟩ := List.any_eq_true.mp hfail
    have hvv : v ∈ (positionalParamsFrom 1 values).map BoundParam.value := by
      rw [positionalParamsFrom_map_value values 1]
      exact hv
    obtain ⟨p, hp, hpv⟩ := List.mem_map.mp hvv
    refine ⟨p, ?_, by rw [hpv]; exact hfv⟩
    simp only [scanSeq, if_pos, List.mem_reverse]
    exact hp
  have hempty :
      (if (interpStep cfg query (scanSeq (positionalParams values) true) "").2.isSome
        then "" else (interpStep cfg query (scanSeq (positionalParams values) true) "").1) = "" := by
    rcases h2 : (interpStep cfg query (scanSeq (positionalParams values) true) "").2 with _ | e
    · by_cases h1 : (interpStep cfg query (scanSeq (positionalParams values) true) "").1 = ""
      · simp [h2, h1]
      · exfalso
        obtain ⟨p, hp, hf⟩ := hmem
        have hok := interpStep_ok_all_format cfg query _ "" h2 h1 p hp
        rw [hok] at hf
        exact absurd hf (by decide)
    · simp [h2]
  refine ⟨?_, ?_, ?_⟩ <;> simp [gobInterpolation, hempty, hq, hvalsne]

/-- C5 witness: evaluated with a value of an unsupported kind among the
parameters; the higher ordinal substitutes first, then the scan fails and
the record falls back to the raw query and the raw argument list. -/
theorem claim_C5_witness :
    ([GoValue.unsupported "chan", GoValue.intv 2].any formatFails) = true ∧
    ¬ ("($1,$2)" : String) = "" ∧
    ((gobInterpolation "" "($1,$2)" [GoValue.unsupported "chan", GoValue.intv 2]
        none).interpolation = none ∧
    (gobInterpolation "" "($1,$2)" [GoValue.unsupported "chan", GoValue.intv 2]
        none).rawQuery = some "($1,$2)" ∧
    (gobInterpolation "" "($1,$2)" [GoValue.unsupported "chan", GoValue.intv 2]
        none).args = some [GoValue.unsupported "chan", GoValue.intv 2]) := by
  refine ⟨by decide, by decide, ?_⟩
  exact claim_C5_all_or_nothing "" "($1,$2)" [GoValue.unsupported "chan", GoValue.intv 2]
    none (by decide) (by decide)

/-- C6: the literal formatter produces exactly the documented text for
every supported kind: integers of any width as decimal text, the carried
shortest round-trippable decimal text for floats, TRUE and FALSE for
booleans, the escape-string bytea literal for byte sequences, single
quoted strings, the single quoted second-precision UTC instant for
timestamps, NULL for a nil pointer of any supported kind, the held value's
rendering for a non-nil pointer, and a typed UnsupportedType error for any
other kind. -/
theorem claim_C6_value_string :
    (∀ i : Int, ValueString (GoValue.intv i) = .ok (toString i)) ∧
    ValueString (GoValue.intv 7) = .ok "7" ∧
    ValueString (GoValue.intv 1) = .ok "1" ∧
    ValueString (GoValue.intv (-3)) = .ok "-3" ∧
    ValueString (GoValue.floatv "4.1") = .ok "4.1" ∧
    ValueString (GoValue.boolv true) = .ok "TRUE" ∧
    ValueString (GoValue.boolv false) = .ok "FALSE" ∧
    ValueString (GoValue.bytesv [102, 111, 111]) = .ok "E'\\\\x666f6f'" ∧
    ValueString (GoValue.strv "foo") = .ok "'foo'" ∧
    ValueString (GoValue.timev (UTCTime.mk 2020 11 21 13 56 42)) =
      .ok "'2020-11-21T13:56:42Z'" ∧
    ValueString GoValue.null = .ok "NULL" ∧
    ValueString (GoValue.ptr (GoValue.intv 6)) = .ok "6" ∧
    ValueString (GoValue.ptr (GoValue.strv "foo")) = .ok "'foo'" ∧
    ValueString (GoValue.unsupported "chan int") =
      .error (ScanErr.unsupportedType "chan int") := by
  exact ⟨fun i => rfl, by decide, by decide, by decide, by decide, by decide, by decide,
    by decide, by decide, by decide, by decide, by decide, by decide, by decide⟩

end Sqltee
